import Mathlib

/-!
Verification development for the research-report pipeline
(`research_app.py`): a Streamlit application that generates search
queries with an LLM, retrieves and summarizes arXiv documents, writes a
final report, and renders it as a PDF.

The Python source is shallowly embedded: pure helpers become Lean
functions; external services (the generation model, the arXiv
retriever) are function parameters; fallible code returns `Except`.
-/

/-! ## Model of Python `str.join`

`sep.join(xs)` concatenates the elements of `xs` with `sep` between
consecutive elements; the empty sequence yields the empty string. -/

def strJoin (sep : String) : List String → String
  | [] => ""
  | [x] => x
  | x :: y :: rest => x ++ sep ++ strJoin sep (y :: rest)

/-! ## `flatten_list`

Source: `return "\n\n".join("\n\n".join(sublist) for sublist in nested_list)` -/

def flatten_list (nested_list : List (List String)) : String :=
  strJoin "\n\n" (nested_list.map (strJoin "\n\n"))

example : flatten_list [] = "" := by decide
example : flatten_list [["a", "b"]] = "a\n\nb" := by decide
example : flatten_list [["a"], ["b"]] = "a\n\nb" := by decide
example : flatten_list [[], ["a"]] = "\n\na" := by decide
example : flatten_list [[]] = "" := by decide

/-! ## Model of `json.loads` (Python standard library)

A JSON value as decoded by `json.loads`.  Numbers are kept as their
source lexeme: no claim compares numeric values, and keeping the lexeme
avoids committing to floating-point semantics. -/

inductive PyJson where
  | null : PyJson
  | bool (b : Bool) : PyJson
  | num (lexeme : String) : PyJson
  | str (s : String) : PyJson
  | arr (elems : List PyJson) : PyJson
  | obj (members : List (String × PyJson)) : PyJson

/-- JSON whitespace: space, tab, newline, carriage return. -/
def jsonWs (c : Char) : Bool :=
  c = ' ' || c = '\t' || c = '\n' || c = '\r'

def skipWs : List Char → List Char
  | [] => []
  | c :: rest => if jsonWs c then skipWs rest else c :: rest

def hexVal (c : Char) : Option Nat :=
  if '0' ≤ c ∧ c ≤ '9' then some (c.toNat - '0'.toNat)
  else if 'a' ≤ c ∧ c ≤ 'f' then some (c.toNat - 'a'.toNat + 10)
  else if 'A' ≤ c ∧ c ≤ 'F' then some (c.toNat - 'A'.toNat + 10)
  else none

/-- Decode the body of a JSON string literal (the opening quote already
consumed); returns the decoded characters and the input after the
closing quote.  Surrogate pairs in `\uXXXX` escapes are combined; a lone
surrogate is rejected here (CPython would produce a lone-surrogate
`str`, which a Lean `String` cannot represent — no claim depends on
lone surrogates). -/
def parseStrChars : Nat → List Char → Except String (List Char × List Char)
  | 0, _ => .error "Expecting value"
  | fuel + 1, cs =>
    match cs with
    | [] => .error "Unterminated string"
    | '"' :: rest => .ok ([], rest)
    | '\\' :: esc =>
      match esc with
      | '"' :: r => (parseStrChars fuel r).map (fun p => ('"' :: p.1, p.2))
      | '\\' :: r => (parseStrChars fuel r).map (fun p => ('\\' :: p.1, p.2))
      | '/' :: r => (parseStrChars fuel r).map (fun p => ('/' :: p.1, p.2))
      | 'b' :: r => (parseStrChars fuel r).map (fun p => (Char.ofNat 8 :: p.1, p.2))
      | 'f' :: r => (parseStrChars fuel r).map (fun p => (Char.ofNat 12 :: p.1, p.2))
      | 'n' :: r => (parseStrChars fuel r).map (fun p => ('\n' :: p.1, p.2))
      | 'r' :: r => (parseStrChars fuel r).map (fun p => ('\r' :: p.1, p.2))
      | 't' :: r => (parseStrChars fuel r).map (fun p => ('\t' :: p.1, p.2))
      | 'u' :: h1 :: h2 :: h3 :: h4 :: r =>
        match hexVal h1, hexVal h2, hexVal h3, hexVal h4 with
        | some a, some b, some c, some d =>
          let n := ((a * 16 + b) * 16 + c) * 16 + d
          if 0xD800 ≤ n ∧ n ≤ 0xDBFF then
            match r with
            | '\\' :: 'u' :: g1 :: g2 :: g3 :: g4 :: r2 =>
              match hexVal g1, hexVal g2, hexVal g3, hexVal g4 with
              | some a2, some b2, some c2, some d2 =>
                let m := ((a2 * 16 + b2) * 16 + c2) * 16 + d2
                if 0xDC00 ≤ m ∧ m ≤ 0xDFFF then
                  let code := 0x10000 + (n - 0xD800) * 0x400 + (m - 0xDC00)
                  (parseStrChars fuel r2).map (fun p => (Char.ofNat code :: p.1, p.2))
                else .error "Unpaired surrogate"
              | _, _, _, _ => .error "Invalid \\uXXXX escape"
            | _ => .error "Unpaired surrogate"
          else if 0xDC00 ≤ n ∧ n ≤ 0xDFFF then .error "Unpaired surrogate"
          else (parseStrChars fuel r).map (fun p => (Char.ofNat n :: p.1, p.2))
        | _, _, _, _ => .error "Invalid \\uXXXX escape"
      | _ => .error "Invalid \\escape"
    | c :: rest =>
      if c.toNat < 0x20 then .error "Invalid control character"
      else (parseStrChars fuel rest).map (fun p => (c :: p.1, p.2))

/-- Lex a JSON number, returning its lexeme and the remaining input.
Grammar: `-? (0 | [1-9][0-9]*) (. [0-9]+)? ([eE][+-]?[0-9]+)?`. -/
def parseNumber (cs : List Char) : Except String (String × List Char) :=
  let (sign, cs1) :=
    match cs with
    | '-' :: rest => (['-'], rest)
    | _ => (([] : List Char), cs)
  match cs1 with
  | '0' :: rest => parseNumberFrac (sign ++ ['0']) rest
  | c :: rest =>
    if c.isDigit then
      let (ds, rest2) := rest.span Char.isDigit
      parseNumberFrac (sign ++ c :: ds) rest2
    else .error "Expecting value"
  | [] => .error "Expecting value"
where
  parseNumberFrac (acc : List Char) (cs : List Char) : Except String (String × List Char) :=
    match cs with
    | '.' :: rest =>
      let (ds, rest2) := rest.span Char.isDigit
      if ds = [] then .error "Expecting digit in number"
      else parseNumberExp (acc ++ '.' :: ds) rest2
    | _ => parseNumberExp acc cs
  parseNumberExp (acc : List Char) (cs : List Char) : Except String (String × List Char) :=
    match cs with
    | e :: rest =>
      if e = 'e' ∨ e = 'E' then
        let (sgn, rest1) :=
          match rest with
          | '+' :: r => (['+'], r)
          | '-' :: r => (['-'], r)
          | _ => (([] : List Char), rest)
        let (ds, rest2) := rest1.span Char.isDigit
        if ds = [] then .error "Expecting digit in exponent"
        else .ok (String.mk (acc ++ e :: sgn ++ ds), rest2)
      else .ok (String.mk acc, cs)
    | [] => .ok (String.mk acc, cs)

mutual

/-- Recursive-descent JSON value parser, fuel-indexed (the fuel supplied
by `jsonLoads` always suffices, since every recursive call follows the
consumption of at least one input character). -/
def parseValue : Nat → List Char → Except String (PyJson × List Char)
  | 0, _ => .error "Expecting value"
  | fuel + 1, cs =>
    match skipWs cs with
    | [] => .error "Expecting value"
    | '"' :: rest =>
      (parseStrChars (rest.length + 1) rest).map (fun p => (.str (String.mk p.1), p.2))
    | 'n' :: rest =>
      if rest.take 3 = ['u', 'l', 'l'] then .ok (.null, rest.drop 3)
      else .error "Expecting value"
    | 't' :: rest =>
      if rest.take 3 = ['r', 'u', 'e'] then .ok (.bool true, rest.drop 3)
      else .error "Expecting value"
    | 'f' :: rest =>
      if rest.take 4 = ['a', 'l', 's', 'e'] then .ok (.bool false, rest.drop 4)
      else .error "Expecting value"
    | '[' :: rest =>
      match skipWs rest with
      | ']' :: r => .ok (.arr [], r)
      | _ => (parseElems fuel rest).map (fun p => (.arr p.1, p.2))
    | '{' :: rest =>
      match skipWs rest with
      | '}' :: r => .ok (.obj [], r)
      | _ => (parseMembers fuel rest).map (fun p => (.obj p.1, p.2))
    | c :: _ =>
      if c = '-' ∨ c.isDigit then
        (parseNumber (skipWs cs)).map (fun p => (.num p.1, p.2))
      else .error "Expecting value"

/-- Parse the elements of a non-empty JSON array, up to and including
the closing bracket. -/
def parseElems : Nat → List Char → Except String (List PyJson × List Char)
  | 0, _ => .error "Expecting value"
  | fuel + 1, cs => do
    let (v, r) ← parseValue fuel cs
    match skipWs r with
    | ',' :: r2 => (parseElems fuel r2).map (fun p => (v :: p.1, p.2))
    | ']' :: r2 => .ok ([v], r2)
    | _ => .error "Expecting comma delimiter"

/-- Parse the members of a non-empty JSON object, up to and including
the closing brace.  Duplicate keys are kept as parsed (CPython collapses
them, last value winning; no claim exercises duplicate keys). -/
def parseMembers : Nat → List Char → Except String (List (String × PyJson) × List Char)
  | 0, _ => .error "Expecting value"
  | fuel + 1, cs =>
    match skipWs cs with
    | '"' :: rest => do
      let (key, r) ← parseStrChars (rest.length + 1) rest
      match skipWs r with
      | ':' :: r2 => do
        let (v, r3) ← parseValue fuel r2
        match skipWs r3 with
        | ',' :: r4 => (parseMembers fuel r4).map (fun p => ((String.mk key, v) :: p.1, p.2))
        | '}' :: r4 => .ok ([(String.mk key, v)], r4)
        | _ => .error "Expecting comma delimiter"
      | _ => .error "Expecting colon delimiter"
    | _ => .error "Expecting property name"

end

/-- Model of `json.loads` on a `str` argument: parse one JSON value,
then require only whitespace to remain (otherwise CPython raises
`JSONDecodeError: Extra data`). -/
def jsonLoads (s : String) : Except String PyJson :=
  match parseValue (4 * s.length + 4) s.data with
  | .ok (v, rest) => if skipWs rest = [] then .ok v else .error "Extra data"
  | .error e => .error e

/-! ## `parse_json`

Source:
```
try:
    return json.loads(raw_output)
except json.JSONDecodeError:
    st.error(...)
    return []
```
The `st.error` call is a pure display side effect and carries no data
used later; it is not modelled. -/

def parse_json (raw_output : String) : PyJson :=
  match jsonLoads raw_output with
  | .ok v => v
  | .error _ => PyJson.arr []

example : jsonLoads "[\"a\", \"b\"]" = .ok (.arr [.str "a", .str "b"]) := by rfl
example : jsonLoads "not json" = .error "Expecting value" := by rfl
example : jsonLoads "[1,2" = .error "Expecting comma delimiter" := by rfl
example : jsonLoads "" = .error "Expecting value" := by rfl
example : parse_json "\x7b\"a\": 1\x7d" = .obj [("a", .num "1")] := by rfl
example : parse_json "3.5e2" = .num "3.5e2" := by rfl
example : parse_json "[1,2" = .arr [] := by rfl
example : jsonLoads "[true, null, -0.5]" = .ok (.arr [.bool true, .null, .num "-0.5"]) := by rfl
example : jsonLoads "\"a\\u00e9\"" = .ok (.str "aé") := by rfl
example : jsonLoads "[] []" = .error "Extra data" := by rfl

/-! ## `parse_json` on dynamically typed arguments

Python is dynamically typed: `parse_json` can be called with a non-`str`
argument, which reaches `json.loads` unchecked.  Per the CPython
documentation, `json.loads` deserializes `str`, `bytes` or `bytearray`
instances and raises `TypeError` for anything else; `bytes` input is
decoded (UTF-8 for BOM-less input) and then parsed, a failed decode
raising `UnicodeDecodeError`.  The `except` clause of `parse_json`
catches only `json.JSONDecodeError`. -/

inductive PyArg where
  | str (s : String) : PyArg
  | bytes (bs : List Nat) : PyArg
  | pyNone : PyArg

inductive PyExc where
  | jsonDecodeError (msg : String) : PyExc
  | typeError (msg : String) : PyExc
  | unicodeDecodeError : PyExc

/-- Strict UTF-8 decoding of a byte sequence, as `bytes.decode("utf-8")`
performs it: multi-byte sequences must be well-formed, with overlong
encodings and surrogate code points rejected. -/
def utf8Decode : List Nat → Option (List Char)
  | [] => some []
  | b0 :: rest =>
    if b0 < 0x80 then
      (utf8Decode rest).map (fun cs => Char.ofNat b0 :: cs)
    else if 0xC2 ≤ b0 ∧ b0 ≤ 0xDF then
      match rest with
      | b1 :: rest2 =>
        if 0x80 ≤ b1 ∧ b1 ≤ 0xBF then
          (utf8Decode rest2).map (fun cs => Char.ofNat ((b0 - 0xC0) * 0x40 + (b1 - 0x80)) :: cs)
        else none
      | _ => none
    else if 0xE0 ≤ b0 ∧ b0 ≤ 0xEF then
      match rest with
      | b1 :: b2 :: rest2 =>
        let lo1 := if b0 = 0xE0 then 0xA0 else 0x80
        let hi1 := if b0 = 0xED then 0x9F else 0xBF
        if (lo1 ≤ b1 ∧ b1 ≤ hi1) ∧ (0x80 ≤ b2 ∧ b2 ≤ 0xBF) then
          (utf8Decode rest2).map
            (fun cs => Char.ofNat ((b0 - 0xE0) * 0x1000 + (b1 - 0x80) * 0x40 + (b2 - 0x80)) :: cs)
        else none
      | _ => none
    else if 0xF0 ≤ b0 ∧ b0 ≤ 0xF4 then
      match rest with
      | b1 :: b2 :: b3 :: rest2 =>
        let lo1 := if b0 = 0xF0 then 0x90 else 0x80
        let hi1 := if b0 = 0xF4 then 0x8F else 0xBF
        if (lo1 ≤ b1 ∧ b1 ≤ hi1) ∧ (0x80 ≤ b2 ∧ b2 ≤ 0xBF) ∧ (0x80 ≤ b3 ∧ b3 ≤ 0xBF) then
          (utf8Decode rest2).map
            (fun cs => Char.ofNat
              ((b0 - 0xF0) * 0x40000 + (b1 - 0x80) * 0x1000 + (b2 - 0x80) * 0x40 + (b3 - 0x80)) :: cs)
        else none
      | _ => none
    else none

/-- `json.loads` on a dynamically typed argument.  The UTF-16/UTF-32
byte-order-mark auto-detection of CPython `json.detect_encoding` is not
modelled; the claims exercise UTF-8 payloads only. -/
def json_loads_arg : PyArg → Except PyExc PyJson
  | .str s => (jsonLoads s).mapError PyExc.jsonDecodeError
  | .bytes bs =>
    match utf8Decode bs with
    | some cs => (jsonLoads (String.mk cs)).mapError PyExc.jsonDecodeError
    | none => .error PyExc.unicodeDecodeError
  | .pyNone => .error (.typeError "the JSON object must be str, bytes or bytearray, not NoneType")

/-- `parse_json` seen with its dynamic calling convention: only
`json.JSONDecodeError` is caught (yielding the `[]` fallback); every
other exception propagates. -/
def parse_json_dyn (arg : PyArg) : Except PyExc PyJson :=
  match json_loads_arg arg with
  | .ok v => .ok v
  | .error (.jsonDecodeError _) => .ok (PyJson.arr [])
  | .error e => .error e

example : parse_json_dyn (.bytes [0x5b, 0x31, 0x2c, 0x20, 0x32, 0x5d]) =
    .ok (.arr [.num "1", .num "2"]) := by rfl
example : parse_json_dyn .pyNone =
    .error (.typeError "the JSON object must be str, bytes or bytearray, not NoneType") := by rfl
example : utf8Decode [0x63, 0x61, 0x66, 0xC3, 0xA9] = some ['c', 'a', 'f', 'é'] := by rfl

/-! ## Model of the ASCII transliteration in `generate_pdf`

Source line:
`unicodedata.normalize("NFKD", report_text).encode("ascii", "ignore").decode("ascii")`

`nfkdChar` is modelled from the Unicode NFKD decomposition data for the
characters the development evaluates; ASCII characters decompose to
themselves (a Unicode invariant on which the proofs rely), and
non-ASCII characters outside the table are approximated by the
identity (no theorem depends on their decomposition). -/

def nfkdChar (c : Char) : List Char :=
  if c = 'é' then ['e', Char.ofNat 0x301]
  else if c = 'ç' then ['c', Char.ofNat 0x327]
  else if c = 'ñ' then ['n', Char.ofNat 0x303]
  else if c = 'ﬁ' then ['f', 'i']
  else [c]

def nfkdNormalize (s : String) : String :=
  String.mk (s.data.flatMap nfkdChar)

/-- `str.encode("ascii", "ignore").decode("ascii")`: keep the ASCII
characters, drop all others. -/
def encodeAsciiIgnore (s : String) : String :=
  String.mk (s.data.filter (fun c => c.toNat < 128))

def asciiTranslit (report_text : String) : String :=
  encodeAsciiIgnore (nfkdNormalize report_text)

example : asciiTranslit "café" = "cafe" := by decide
example : asciiTranslit "ﬁn niño" = "fin nino" := by decide

/-! ## Model of the FPDF library (external, consumed as a black box)

Only the aspects the claims touch are modelled: the sequence of calls
`generate_pdf` makes, whether the Unicode font asset loads (`add_font`
with `uni=True` raises when `DejaVuSans.ttf` is missing, caught by the
`except` clause), the text placed by `multi_cell`, and that
`output(dest="S")` yields a document string beginning with the PDF
header (hence a non-empty byte sequence after encoding). -/

structure FPDFState where
  pages : Nat
  autoBreak : Bool
  breakMargin : Nat
  fontFamily : String
  fontSize : Nat
  fontUnicode : Bool
  body : List String

def FPDF_new : FPDFState :=
  { pages := 0, autoBreak := false, breakMargin := 0,
    fontFamily := "", fontSize := 0, fontUnicode := false, body := [] }

def FPDF_add_page (pdf : FPDFState) : FPDFState :=
  { pdf with pages := pdf.pages + 1 }

def FPDF_set_auto_page_break (pdf : FPDFState) (auto : Bool) (margin : Nat) : FPDFState :=
  { pdf with autoBreak := auto, breakMargin := margin }

/-- `pdf.add_font(family, "", file, uni=True)`: succeeds when the font
asset file is present and loadable, raises otherwise.  Whether the
asset loads is an environment fact, passed in as `fontAssetOk`. -/
def FPDF_add_font (fontAssetOk : Bool) (pdf : FPDFState) (_family _file : String)
    (uni : Bool) : Except String FPDFState :=
  if fontAssetOk then .ok { pdf with fontUnicode := uni }
  else .error "TTF Font file not found"

def FPDF_set_font (pdf : FPDFState) (family : String) (size : Nat) : FPDFState :=
  { pdf with fontFamily := family, fontSize := size }

def FPDF_multi_cell (pdf : FPDFState) (_w _h : Nat) (txt : String) : FPDFState :=
  { pdf with body := pdf.body ++ [txt] }

/-- `pdf.output(dest="S")`: the serialized document.  The layout
internals are the library's own; what matters for the claims is that
the output starts with the PDF header and embeds the placed text. -/
def FPDF_output (pdf : FPDFState) : String :=
  "%PDF-1.3\n" ++ strJoin "\n" pdf.body ++ "\n%%EOF"

/-- `str.encode("latin1", errors="replace")`: code points above 255
become `?` (byte 63). -/
def encodeLatin1Replace (s : String) : List Nat :=
  s.data.map (fun c => if c.toNat < 256 then c.toNat else 63)

/-! ## `generate_pdf`

Faithful to the source: the empty-input guard first (`if not
report_text: raise ValueError(...)` — for a `str`, falsy means empty),
then page setup, then the `try`/`except` font selection deciding the
content, then `multi_cell` and `output`.  `generate_pdf_doc` exposes
the chosen content alongside the document string; `generate_pdf`
projects to the returned bytes. -/

def generate_pdf_doc (fontAssetOk : Bool) (report_text : String) :
    Except String (String × String) :=
  if report_text = "" then .error "No report content provided."
  else
    let pdf := FPDF_set_auto_page_break (FPDF_add_page FPDF_new) true 15
    match FPDF_add_font fontAssetOk pdf "DejaVu" "DejaVuSans.ttf" true with
    | .ok pdf1 =>
      let pdf2 := FPDF_set_font pdf1 "DejaVu" 12
      let content := report_text
      .ok (content, FPDF_output (FPDF_multi_cell pdf2 0 10 content))
    | .error _ =>
      let pdf2 := FPDF_set_font pdf "Helvetica" 12
      let content := asciiTranslit report_text
      .ok (content, FPDF_output (FPDF_multi_cell pdf2 0 10 content))

def generate_pdf (fontAssetOk : Bool) (report_text : String) : Except String (List Nat) :=
  (generate_pdf_doc fontAssetOk report_text).map (fun p => encodeLatin1Replace p.2)

example : generate_pdf true "" = .error "No report content provided." := by rfl
example : generate_pdf_doc false "café" = .ok ("cafe", "%PDF-1.3\ncafe\n%%EOF") := by rfl
example : generate_pdf_doc true "café" = .ok ("café", "%PDF-1.3\ncafé\n%%EOF") := by rfl

/-! ## The research pipeline

External services are function parameters:
* `llm : String → String` — the hosted generation model
  (`GoogleGenerativeAI`, a plain LLM: chat prompt values reach it as a
  single string with `System:`/`Human:` role markers);
* `retriever : String → List Doc` — `ArxivRetriever`, via
  `get_summaries_as_docs(query)`.

A retrieved document; the code inspects `metadata["Title"]`,
`metadata["Entry ID"]` and (through `str(doc)` in the summary prompt)
the page content.  Other metadata fields are not modelled. -/

structure Doc where
  title : String
  entry_id : String
  page_content : String

def hexDigit (n : Nat) : Char :=
  if n < 10 then Char.ofNat ('0'.toNat + n) else Char.ofNat ('a'.toNat + n - 10)

/-- Escaping performed by Python `repr` on one character of a `str`. -/
def pyReprEscChar (c : Char) : List Char :=
  if c = '\\' then ['\\', '\\']
  else if c = '\'' then ['\\', '\'']
  else if c = '\n' then ['\\', 'n']
  else if c = '\r' then ['\\', 'r']
  else if c = '\t' then ['\\', 't']
  else if c.toNat < 32 then ['\\', 'x', hexDigit (c.toNat / 16), hexDigit (c.toNat % 16)]
  else [c]

/-- Python `repr` of a `str`.  Python prefers single quotes but switches
to double quotes when the string contains a single quote and no double
quote; the always-single-quote form with escaping is used here (a
display-only difference inside prompt text, on which no claim
depends). -/
def pyReprStr (s : String) : String :=
  "\'" ++ String.mk (s.data.flatMap pyReprEscChar) ++ "\'"

/-- `str()` of a langchain `Document`, as interpolated for `{doc}` in
the summary prompt. -/
def docRepr (d : Doc) : String :=
  "page_content=" ++ pyReprStr d.page_content ++
    " metadata=\x7b\'Entry ID\': " ++ pyReprStr d.entry_id ++
    ", \'Title\': " ++ pyReprStr d.title ++ "\x7d"

/-- The query-generation prompt of `create_search_query_chain`, rendered
for the LLM with the `question` slot filled. -/
def search_prompt_render (question : String) : String :=
  "Human: Generate 3 Google search queries to find objective information on: " ++
    question ++
    "\nRespond strictly as a JSON list: [\'query 1\', \'query 2\', \'query 3\']"

/-- The per-document prompt of `get_summary_prompt`, rendered with the
`doc` and `question` slots filled. -/
def summary_prompt_render (d : Doc) (question : String) : String :=
  "Human: " ++ docRepr d ++
    "\n\n-----------\nUsing the above text, answer in short:\n\n> " ++ question ++
    "\n-----------\nIf the question cannot be answered, summarize all factual information, numbers, and statistics."

/-- `create_search_query_chain`: prompt, LLM call, string parse, then
`parse_json` on the raw model output. -/
def create_search_query_chain (llm : String → String) (question : String) : PyJson :=
  parse_json (llm (search_prompt_render question))

/-- The list comprehension `[{"question": q} for q in x]` iterates the
value returned by `parse_json`: a list yields its elements, a string
its characters, an object its keys; `None`, booleans and numbers are
not iterable and raise `TypeError`. -/
def pyIterQuestions : PyJson → Except String (List PyJson)
  | .arr es => .ok es
  | .str s => .ok (s.data.map (fun c => .str (String.singleton c)))
  | .obj kvs => .ok (kvs.map (fun kv => .str kv.1))
  | .null => .error "TypeError: NoneType object is not iterable"
  | .bool _ => .error "TypeError: bool object is not iterable"
  | .num _ => .error "TypeError: number is not iterable"

/-- The query value `q` is used downstream as a string (retriever call
and prompt slot).  `str()` of nested containers is not modelled — no
claim exercises non-string query items. -/
def pyQueryStr : PyJson → String
  | .str s => s
  | .num lexeme => lexeme
  | .bool true => "True"
  | .bool false => "False"
  | .null => "None"
  | .arr _ => ""
  | .obj _ => ""

/-- `create_summary_chain`: assign `summary` from the prompt-LLM chain,
then format `"Title: ...\n\nSUMMARY: ..."`. -/
def create_summary_chain (llm : String → String) (question : String) (doc : Doc) : String :=
  "Title: " ++ doc.title ++ "\n\nSUMMARY: " ++ llm (summary_prompt_render doc question)

/-- `create_web_search_chain`: fetch documents for the question,
truncate to the first ten, and map the summary chain over them. -/
def create_web_search_chain (retriever : String → List Doc) (llm : String → String)
    (question : String) : List String :=
  ((retriever question).take 10).map (create_summary_chain llm question)

/-- `create_full_research_chain`: generate queries, wrap each in a
`question` record, and map the web-search chain over them. -/
def create_full_research_chain (llm : String → String) (retriever : String → List Doc)
    (question : String) : Except String (List (List String)) :=
  (pyIterQuestions (create_search_query_chain llm question)).map
    (fun qs => qs.map (fun q => create_web_search_chain retriever llm (pyQueryStr q)))

/-- The `research_summary` value computed by
`create_research_summary_chain`: the full research chain piped through
`flatten_list`. -/
def research_summary_value (llm : String → String) (retriever : String → List Doc)
    (question : String) : Except String String :=
  (create_full_research_chain llm retriever question).map flatten_list

/-- The `url_list` string built by `create_url_list_chain`: a second,
independent retrieval on the original question (not on the generated
queries), first ten documents, rendered as newline-joined Markdown
links. -/
def create_url_list_chain (retriever : String → List Doc) (question : String) : String :=
  strJoin "\n" (((retriever question).take 10).map
    (fun u => "[" ++ u.title ++ "](" ++ u.entry_id ++ ")"))

/-- `str()` of the dict `{"question": topic}` that
`RunnablePassthrough()` forwards into the writer prompt `question`
slot (the chain is invoked with that dict, and the passthrough passes
it whole, not the bare topic string). -/
def inputDictRepr (topic : String) : String :=
  "\x7b\'question\': " ++ pyReprStr topic ++ "\x7d"

/-- `str()` of the dict produced by `create_research_summary_chain`
(`RunnablePassthrough.assign` keeps the input keys and adds
`research_summary`), as interpolated into the writer prompt. -/
def rsDictRepr (topic research_summary : String) : String :=
  "\x7b\'question\': " ++ pyReprStr topic ++
    ", \'research_summary\': " ++ pyReprStr research_summary ++ "\x7d"

/-- `str()` of the dict `{"url_list": ...}` returned by
`create_url_list_chain`, as interpolated into the writer prompt. -/
def urlDictRepr (url_list : String) : String :=
  "\x7b\'url_list\': " ++ pyReprStr url_list ++ "\x7d"

/-- The writer prompt of `create_final_chain`, rendered for the LLM
with its three slots filled. -/
def writer_prompt_render (question research_summary url_list : String) : String :=
  "System: You are an expert academic writer. Generate a high-quality research paper based on input.\nHuman: \n        Information:\n--------\n" ++
    research_summary ++
    "\n--------\n\n        Write a detailed research paper on: \"" ++ question ++
    "\".\n\n        - Include an in-depth literature review, findings, statistics, and APA citations.\n        - Ensure at least 1,200 words.\n        - List references with clickable links from " ++
    url_list ++ "."

/-- `create_final_chain` invoked on `{"question": topic}`: the three
parallel branches feed the writer prompt, whose rendering goes to the
LLM; a `TypeError` from the query iteration propagates. -/
def create_final_chain (llm : String → String) (retriever : String → List Doc)
    (topic : String) : Except String String :=
  (research_summary_value llm retriever topic).map (fun rs =>
    llm (writer_prompt_render (inputDictRepr topic) (rsDictRepr topic rs)
      (urlDictRepr (create_url_list_chain retriever topic))))

/-! ## UI shell (`main`)

Streamlit display calls are modelled as an event list; an uncaught
exception inside the button handler is the optional second component.
The LLM is constructed from the API key (`initialize_llm`), modelled by
an oracle `llmFactory` from keys to models; `fontAssetOk` is the
environment fact consumed by `generate_pdf`.  Python truthiness of a
`str` is non-emptiness, so `if not google_api_key` and
`if not research_topic` are equality with `""`. -/

inductive UIEvent where
  | errorMsg (msg : String) : UIEvent
  | successMsg (msg : String) : UIEvent
  | markdown (text : String) : UIEvent
  | download (label fname mime : String) (payload : List Nat) : UIEvent

/-- One press of the Generate Report button. -/
def main_click (llmFactory : String → String → String) (retriever : String → List Doc)
    (fontAssetOk : Bool) (google_api_key research_topic : String) :
    List UIEvent × Option String :=
  if google_api_key = "" then ([.errorMsg "API Key is required."], none)
  else if research_topic = "" then ([.errorMsg "Research topic is required."], none)
  else
    match create_final_chain (llmFactory google_api_key) retriever research_topic with
    | .error e => ([], some e)
    | .ok report =>
      match generate_pdf fontAssetOk report with
      | .error e => ([.successMsg "Report generated!", .markdown report], some e)
      | .ok pdf_bytes =>
        ([.successMsg "Report generated!", .markdown report,
          .download "Download PDF" "research_report.pdf" "application/pdf" pdf_bytes], none)

/-! ## Helper lemmas -/

theorem str_data_append (a b : String) : (a ++ b).data = a.data ++ b.data := by
  rw [String.congr_append]

theorem str_append_assoc (a b c : String) : a ++ b ++ c = a ++ (b ++ c) := by
  rcases a with ⟨la⟩; rcases b with ⟨lb⟩; rcases c with ⟨lc⟩
  show String.mk (la ++ lb ++ lc) = String.mk (la ++ (lb ++ lc))
  rw [List.append_assoc]

theorem go_assoc (sep : String) (l : List String) :
    ∀ x y : String, String.intercalate.go (x ++ y) sep l = x ++ String.intercalate.go y sep l := by
  induction l with
  | nil => intro x y; simp [String.intercalate.go]
  | cons a t ih =>
    intro x y
    show String.intercalate.go (x ++ y ++ sep ++ a) sep t =
      x ++ String.intercalate.go (y ++ sep ++ a) sep t
    rw [str_append_assoc (x ++ y) sep a, str_append_assoc x y (sep ++ a),
      ← str_append_assoc y sep a]
    exact ih x (y ++ sep ++ a)

theorem intercalate_cons_cons (sep x y : String) (l : List String) :
    String.intercalate sep (x :: y :: l) = x ++ sep ++ String.intercalate sep (y :: l) := by
  show String.intercalate.go (x ++ sep ++ y) sep l = x ++ sep ++ String.intercalate.go y sep l
  rw [go_assoc sep l (x ++ sep) y]

/-- The model of Python `str.join` agrees with `String.intercalate`,
the library formulation of joining with a separator. -/
theorem strJoin_eq_intercalate (sep : String) (l : List String) :
    strJoin sep l = String.intercalate sep l := by
  induction l with
  | nil => rfl
  | cons x t ih =>
    cases t with
    | nil => rfl
    | cons y t2 =>
      rw [strJoin, ih, intercalate_cons_cons]

theorem strJoin_cons_of_ne_nil (sep x : String) (l : List String) (h : l ≠ []) :
    strJoin sep (x :: l) = x ++ sep ++ strJoin sep l := by
  cases l with
  | nil => exact absurd rfl h
  | cons y t => rfl

theorem strJoin_append_of_ne_nil (sep : String) :
    ∀ xs ys : List String, xs ≠ [] → ys ≠ [] →
      strJoin sep (xs ++ ys) = strJoin sep xs ++ sep ++ strJoin sep ys := by
  intro xs
  induction xs with
  | nil => intro ys h _; exact absurd rfl h
  | cons x t ih =>
    intro ys _ hys
    cases t with
    | nil =>
      cases ys with
      | nil => exact absurd rfl hys
      | cons z zs => rfl
    | cons x2 t2 =>
      have h1 : (x2 :: t2) ++ ys ≠ [] := by simp
      show strJoin sep (x :: ((x2 :: t2) ++ ys)) = _
      rw [strJoin_cons_of_ne_nil sep x _ h1, ih ys (by simp) hys,
        strJoin_cons_of_ne_nil sep x (x2 :: t2) (by simp)]
      rw [str_append_assoc (x ++ sep) (strJoin sep (x2 :: t2)) sep,
        str_append_assoc (x ++ sep) (strJoin sep (x2 :: t2) ++ sep) (strJoin sep ys)]

/-- `flatten_list` agrees with join-of-concatenation when every inner
list is non-empty. -/
theorem flatten_list_eq_join_of_ne_nil :
    ∀ nested : List (List String), (∀ l ∈ nested, l ≠ []) →
      flatten_list nested = strJoin "\n\n" nested.flatten := by
  intro nested
  induction nested with
  | nil => intro _; rfl
  | cons l rest ih =>
    intro h
    cases rest with
    | nil =>
      show strJoin "\n\n" [strJoin "\n\n" l] = strJoin "\n\n" (l ++ [].flatten)
      rw [List.flatten_nil, List.append_nil]
      rfl
    | cons m rest2 =>
      have hl : l ≠ [] := h l (by simp)
      have hm : m ≠ [] := h m (by simp)
      have hjoin : (m :: rest2).flatten ≠ [] := by
        rw [List.flatten_cons]
        exact fun hc => hm (List.append_eq_nil.mp hc).1
      show strJoin "\n\n" (strJoin "\n\n" l :: (m :: rest2).map (strJoin "\n\n")) = _
      rw [strJoin_cons_of_ne_nil _ _ _ (by simp), List.flatten_cons,
        strJoin_append_of_ne_nil _ l _ hl hjoin]
      have ih2 := ih (fun x hx => h x (List.mem_cons_of_mem l hx))
      rw [← ih2]
      rfl

/-- C2: The flattening helper `flatten_list` satisfies the three
concrete equations of the spec, and in general joins inner elements by
a double newline and outer groups by a double newline, the empty outer
sequence yielding the empty string (the general clause is stated
against the library join `String.intercalate`). -/
theorem C2_flatten_list_spec :
    flatten_list [] = "" ∧
    flatten_list [["a", "b"]] = "a\n\nb" ∧
    flatten_list [["a"], ["b"]] = "a\n\nb" ∧
    ∀ nested : List (List String),
      flatten_list nested =
        String.intercalate "\n\n" (nested.map (String.intercalate "\n\n")) := by
  refine ⟨by decide, by decide, by decide, fun nested => ?_⟩
  rw [flatten_list, strJoin_eq_intercalate]
  congr 1
  exact List.map_congr_left (fun l _ => strJoin_eq_intercalate "\n\n" l)

/-- C8 counterexample: on `[[]]` the two formulations agree (both are
the empty string) even though `[[]]` contains an empty inner list, so
the claimed "diverge exactly on inputs containing an empty inner list"
fails in the only-if direction. -/
theorem C8_counterexample :
    flatten_list [([] : List String)] = strJoin "\n\n" ([([] : List String)]).flatten ∧
    ([] : List String) ∈ [([] : List String)] ∧
    flatten_list [([] : List String)] = "" := by
  refine ⟨by decide, by simp, by decide⟩

/-- C8 (amended): when every inner list is non-empty, `flatten_list`
equals joining the concatenation of the inner lists with a double
newline; `flatten_list [[], ["a"]] = "\n\na"` inserts an empty segment;
and the two formulations can diverge only on inputs containing an
empty inner list (divergence need not occur on every such input, e.g.
`[[]]`). -/
theorem C8_flatten_list_join :
    (∀ nested : List (List String), (∀ l ∈ nested, l ≠ []) →
      flatten_list nested = strJoin "\n\n" nested.flatten) ∧
    flatten_list [[], ["a"]] = "\n\na" ∧
    (∀ nested : List (List String),
      flatten_list nested ≠ strJoin "\n\n" nested.flatten → ∃ l ∈ nested, l = []) := by
  refine ⟨flatten_list_eq_join_of_ne_nil, by decide, fun nested hdiv => ?_⟩
  by_contra hno
  push_neg at hno
  exact hdiv (flatten_list_eq_join_of_ne_nil nested hno)

/-- C8 witness: the amended theorem applied at concrete inputs. -/
theorem C8_flatten_list_join_witness :
    flatten_list [["a"], ["b", "c"]] = strJoin "\n\n" ([["a"], ["b", "c"]]).flatten :=
  C8_flatten_list_join.1 [["a"], ["b", "c"]] (by decide)

/-- C3: `parse_json` returns the decoded value for every string that is
valid JSON (of any shape, with no schema validation), and returns the
empty list for every string whose decoding raises a JSON decode error,
in particular for `"not json"`, `"[1,2"` and `""`. -/
theorem C3_parse_json_spec :
    (∀ s v, jsonLoads s = .ok v → parse_json s = v) ∧
    (∀ s e, jsonLoads s = .error e → parse_json s = PyJson.arr []) ∧
    (jsonLoads "not json" = .error "Expecting value" ∧
      parse_json "not json" = PyJson.arr []) ∧
    (jsonLoads "[1,2" = .error "Expecting comma delimiter" ∧
      parse_json "[1,2" = PyJson.arr []) ∧
    (jsonLoads "" = .error "Expecting value" ∧ parse_json "" = PyJson.arr []) ∧
    parse_json "\x7b\"a\": 1\x7d" = PyJson.obj [("a", PyJson.num "1")] ∧
    parse_json "3.5" = PyJson.num "3.5" ∧
    parse_json "[[1], \"x\"]" = PyJson.arr [PyJson.arr [PyJson.num "1"], PyJson.str "x"] := by
  refine ⟨fun s v h => ?_, fun s e h => ?_, ⟨by rfl, by rfl⟩, ⟨by rfl, by rfl⟩,
    ⟨by rfl, by rfl⟩, by rfl, by rfl, by rfl⟩
  · rw [parse_json, h]
  · rw [parse_json, h]

/-- C3 witness: the success clause applied at the concrete valid input
`"[]"`. -/
theorem C3_parse_json_spec_witness : parse_json "[]" = PyJson.arr [] :=
  C3_parse_json_spec.1 "[]" (PyJson.arr []) (by rfl)

/-- C9 counterexample: `b"[1, 2]"` is not a string argument, yet no
exception propagates — `json.loads` accepts bytes, and `parse_json`
returns the decoded list. -/
theorem C9_counterexample :
    (∀ s, PyArg.bytes [0x5b, 0x31, 0x2c, 0x20, 0x32, 0x5d] ≠ PyArg.str s) ∧
    parse_json_dyn (PyArg.bytes [0x5b, 0x31, 0x2c, 0x20, 0x32, 0x5d]) =
      .ok (PyJson.arr [PyJson.num "1", PyJson.num "2"]) := by
  exact ⟨fun s h => PyArg.noConfusion h, by rfl⟩

/-- C9 (amended): `parse_json` catches only JSON decode errors — an
argument on which `json.loads` raises a different exception (e.g.
`None`, raising `TypeError`) propagates it, and the empty-list fallback
is reached only via a successful decode of `[]` or a JSON decode
error.  But not every non-string argument raises: `json.loads` accepts
bytes, so UTF-8 bytes of valid JSON decode successfully. -/
theorem C9_parse_json_catches_only_decode_errors :
    parse_json_dyn PyArg.pyNone =
      .error (.typeError "the JSON object must be str, bytes or bytearray, not NoneType") ∧
    (∀ a m, json_loads_arg a = .error (PyExc.typeError m) →
      parse_json_dyn a = .error (PyExc.typeError m)) ∧
    (∀ a, json_loads_arg a = .error PyExc.unicodeDecodeError →
      parse_json_dyn a = .error PyExc.unicodeDecodeError) ∧
    (∀ a, parse_json_dyn a = .ok (PyJson.arr []) →
      json_loads_arg a = .ok (PyJson.arr []) ∨
        ∃ m, json_loads_arg a = .error (PyExc.jsonDecodeError m)) ∧
    parse_json_dyn (PyArg.bytes [0x5b, 0x5d]) = .ok (PyJson.arr []) := by
  refine ⟨by rfl, fun a m h => ?_, fun a h => ?_, fun a h => ?_, by rfl⟩
  · rw [parse_json_dyn, h]
  · rw [parse_json_dyn, h]
  · rw [parse_json_dyn] at h
    cases hj : json_loads_arg a with
    | ok v =>
      rw [hj] at h
      exact Or.inl h
    | error e =>
      cases e with
      | jsonDecodeError m => exact Or.inr ⟨m, rfl⟩
      | typeError m => rw [hj] at h; exact Except.noConfusion h
      | unicodeDecodeError => rw [hj] at h; exact Except.noConfusion h

/-- C9 witness: the propagation clause applied at the concrete
argument `None`. -/
theorem C9_parse_json_catches_only_decode_errors_witness :
    parse_json_dyn PyArg.pyNone =
      .error (.typeError "the JSON object must be str, bytes or bytearray, not NoneType") :=
  C9_parse_json_catches_only_decode_errors.2.1 PyArg.pyNone
    "the JSON object must be str, bytes or bytearray, not NoneType" (by rfl)

/-! ## Transliteration lemmas -/

theorem nfkdChar_ascii (c : Char) (h : c.toNat < 128) : nfkdChar c = [c] := by
  have h1 : c ≠ 'é' := fun he => by subst he; exact absurd h (by decide)
  have h2 : c ≠ 'ç' := fun he => by subst he; exact absurd h (by decide)
  have h3 : c ≠ 'ñ' := fun he => by subst he; exact absurd h (by decide)
  have h4 : c ≠ 'ﬁ' := fun he => by subst he; exact absurd h (by decide)
  simp [nfkdChar, h1, h2, h3, h4]

theorem flatMap_nfkdChar_of_ascii (l : List Char) (h : ∀ c ∈ l, c.toNat < 128) :
    l.flatMap nfkdChar = l := by
  induction l with
  | nil => rfl
  | cons c t ih =>
    rw [List.flatMap_cons, nfkdChar_ascii c (h c (by simp)),
      ih (fun x hx => h x (List.mem_cons_of_mem c hx))]
    rfl

theorem asciiTranslit_all_ascii (s : String) :
    (asciiTranslit s).data.all (fun c => c.toNat < 128) = true := by
  rw [List.all_eq_true]
  intro c hc
  have := List.mem_filter.mp hc
  exact this.2

theorem asciiTranslit_idem (s : String) :
    asciiTranslit (asciiTranslit s) = asciiTranslit s := by
  show String.mk (((asciiTranslit s).data.flatMap nfkdChar).filter (fun c => c.toNat < 128)) = _
  have hall : ∀ c ∈ (asciiTranslit s).data, c.toNat < 128 := by
    intro c hc
    exact of_decide_eq_true (List.mem_filter.mp hc).2
  rw [flatMap_nfkdChar_of_ascii _ hall, List.filter_eq_self.mpr
    (fun c hc => decide_eq_true (hall c hc))]

/-- C10: the ASCII transliteration of the PDF fallback path (NFKD
normalization, then ASCII encoding with non-encodable characters
ignored) produces only ASCII characters, and it is idempotent. -/
theorem C10_asciiTranslit_ascii_idempotent :
    ∀ s : String,
      (asciiTranslit s).data.all (fun c => c.toNat < 128) = true ∧
      asciiTranslit (asciiTranslit s) = asciiTranslit s :=
  fun s => ⟨asciiTranslit_all_ascii s, asciiTranslit_idem s⟩

/-! ## PDF lemmas -/

theorem encodeLatin1Replace_header_ne_nil (t u : String) :
    encodeLatin1Replace ("%PDF-1.3\n" ++ t ++ u) ≠ [] := by
  rw [encodeLatin1Replace, str_append_assoc, str_data_append]
  have hd : ("%PDF-1.3\n").data = '%' :: "PDF-1.3\n".data := rfl
  rw [hd, List.cons_append, List.map_cons]
  exact List.cons_ne_nil _ _

theorem generate_pdf_doc_ok (fontAssetOk : Bool) (s : String) (hs : s ≠ "") :
    generate_pdf_doc fontAssetOk s =
      .ok (if fontAssetOk then s else asciiTranslit s,
        "%PDF-1.3\n" ++ strJoin "\n" [if fontAssetOk then s else asciiTranslit s] ++ "\n%%EOF") := by
  cases fontAssetOk
  · rw [generate_pdf_doc, if_neg hs]; rfl
  · rw [generate_pdf_doc, if_neg hs]; rfl

/-- C4: `generate_pdf` fails with the reported `ValueError` on the
empty string, before any document construction (the guard is the
first statement, reflected by `generate_pdf_doc` returning the same
error with no document built); on every non-empty input it returns a
non-empty byte sequence. -/
theorem C4_generate_pdf_guard :
    (∀ fontAssetOk, generate_pdf fontAssetOk "" = .error "No report content provided." ∧
      generate_pdf_doc fontAssetOk "" = .error "No report content provided.") ∧
    (∀ fontAssetOk (s : String), s ≠ "" →
      ∃ bs, generate_pdf fontAssetOk s = .ok bs ∧ bs ≠ []) := by
  refine ⟨fun b => ⟨by cases b <;> rfl, by cases b <;> rfl⟩, fun b s hs => ?_⟩
  refine ⟨encodeLatin1Replace
      ("%PDF-1.3\n" ++ strJoin "\n" [if b then s else asciiTranslit s] ++ "\n%%EOF"),
    ?_, encodeLatin1Replace_header_ne_nil _ _⟩
  rw [generate_pdf, generate_pdf_doc_ok b s hs]
  rfl

/-- C4 witness: the non-empty clause applied at `"x"` with the font
asset present, and the guard at the empty string. -/
theorem C4_generate_pdf_guard_witness :
    generate_pdf true "" = .error "No report content provided." ∧
    ∃ bs, generate_pdf true "x" = .ok bs ∧ bs ≠ [] :=
  ⟨(C4_generate_pdf_guard.1 true).1, C4_generate_pdf_guard.2 true "x" (by decide)⟩

/-- C5: on a non-empty report containing non-ASCII characters,
`generate_pdf` succeeds on both font paths: with the Unicode font
asset the placed content is the report itself (non-ASCII preserved);
without it the placed content is the ASCII transliteration, which
contains only ASCII characters; neither path raises. -/
theorem C5_generate_pdf_non_ascii :
    ∀ s : String, s ≠ "" → (∃ c ∈ s.data, 128 ≤ c.toNat) →
      (∃ out, generate_pdf_doc true s = .ok (s, out)) ∧
      (∃ out, generate_pdf_doc false s = .ok (asciiTranslit s, out) ∧
        (asciiTranslit s).data.all (fun c => c.toNat < 128) = true) ∧
      (∃ bs, generate_pdf true s = .ok bs) ∧
      (∃ bs, generate_pdf false s = .ok bs) := by
  intro s hs _
  refine ⟨⟨_, generate_pdf_doc_ok true s hs⟩,
    ⟨_, generate_pdf_doc_ok false s hs, asciiTranslit_all_ascii s⟩, ?_, ?_⟩
  · exact ⟨encodeLatin1Replace ("%PDF-1.3\n" ++ strJoin "\n" [s] ++ "\n%%EOF"),
      by rw [generate_pdf, generate_pdf_doc_ok true s hs]; rfl⟩
  · exact ⟨encodeLatin1Replace
        ("%PDF-1.3\n" ++ strJoin "\n" [asciiTranslit s] ++ "\n%%EOF"),
      by rw [generate_pdf, generate_pdf_doc_ok false s hs]; rfl⟩

/-- C5 witness: the theorem applied at `"café"`. -/
theorem C5_generate_pdf_non_ascii_witness :
    (∃ out, generate_pdf_doc true "café" = .ok ("café", out)) ∧
    (∃ out, generate_pdf_doc false "café" = .ok (asciiTranslit "café", out) ∧
      (asciiTranslit "café").data.all (fun c => c.toNat < 128) = true) ∧
    (∃ bs, generate_pdf true "café" = .ok bs) ∧
    (∃ bs, generate_pdf false "café" = .ok bs) :=
  C5_generate_pdf_non_ascii "café" (by decide) ⟨'é', by decide⟩

/-- C6: for every query, the summarization step processes at most the
first ten retrieved documents, in retriever order, and the result at
index `i` is exactly `"Title: <title>\n\nSUMMARY: <text>"` for the
`i`-th retrieved document, with the text generated by the model from
the summary prompt. -/
theorem C6_web_search_chain_take_ten :
    ∀ (retriever : String → List Doc) (llm : String → String) (question : String),
      (create_web_search_chain retriever llm question).length =
        min 10 (retriever question).length ∧
      ∀ (i : Nat) (h1 : i < (create_web_search_chain retriever llm question).length)
        (h2 : i < (retriever question).length),
        (create_web_search_chain retriever llm question)[i] =
          "Title: " ++ ((retriever question)[i]).title ++ "\n\nSUMMARY: " ++
            llm (summary_prompt_render ((retriever question)[i]) question) := by
  intro retriever llm question
  constructor
  · rw [create_web_search_chain, List.length_map, List.length_take]
  · intro i h1 h2
    simp only [create_web_search_chain] at h1 ⊢
    rw [List.getElem_map, List.getElem_take]
    rfl

/-- C6 witness: the theorem applied to a one-document retriever and an
echo model. -/
theorem C6_web_search_chain_take_ten_witness :
    (create_web_search_chain (fun _ => [Doc.mk "T0" "U0" "P0"]) (fun p => p) "q").length =
      min 10 1 ∧
    (create_web_search_chain (fun _ => [Doc.mk "T0" "U0" "P0"]) (fun p => p) "q").get
        ⟨0, by decide⟩ =
      "Title: " ++ (Doc.mk "T0" "U0" "P0").title ++ "\n\nSUMMARY: " ++
        (fun p => p) (summary_prompt_render (Doc.mk "T0" "U0" "P0") "q") :=
  ⟨(C6_web_search_chain_take_ten (fun _ => [Doc.mk "T0" "U0" "P0"]) (fun p => p) "q").1,
    (C6_web_search_chain_take_ten (fun _ => [Doc.mk "T0" "U0" "P0"]) (fun p => p) "q").2
      0 (by decide) (by decide)⟩

/-- C7: a button press with a missing API key or a missing topic
reports an inline error and never consults the model factory, the
retriever or the font environment (the outcome is the same for every
choice of them, so no client is constructed and no chain runs); with
both inputs non-empty the handler runs the pipeline. -/
theorem C7_main_click_validation :
    ∀ (llmFactory : String → String → String) (retriever : String → List Doc)
      (fontAssetOk : Bool) (google_api_key research_topic : String),
      (google_api_key = "" ∨ research_topic = "" →
        (∃ msg, main_click llmFactory retriever fontAssetOk google_api_key research_topic =
          ([UIEvent.errorMsg msg], none)) ∧
        ∀ (llmFactory2 : String → String → String) (retriever2 : String → List Doc)
          (fontAssetOk2 : Bool),
          main_click llmFactory2 retriever2 fontAssetOk2 google_api_key research_topic =
            main_click llmFactory retriever fontAssetOk google_api_key research_topic) ∧
      (google_api_key ≠ "" → research_topic ≠ "" →
        main_click llmFactory retriever fontAssetOk google_api_key research_topic =
          match create_final_chain (llmFactory google_api_key) retriever research_topic with
          | .error e => ([], some e)
          | .ok report =>
            match generate_pdf fontAssetOk report with
            | .error e => ([.successMsg "Report generated!", .markdown report], some e)
            | .ok pdf_bytes =>
              ([.successMsg "Report generated!", .markdown report,
                .download "Download PDF" "research_report.pdf" "application/pdf" pdf_bytes],
                none)) := by
  intro llmFactory retriever fontAssetOk google_api_key research_topic
  constructor
  · intro h
    by_cases hk : google_api_key = ""
    · exact ⟨⟨"API Key is required.", by rw [main_click, if_pos hk]⟩,
        fun f2 r2 b2 => by rw [main_click, if_pos hk, main_click, if_pos hk]⟩
    · have ht : research_topic = "" := h.resolve_left hk
      exact ⟨⟨"Research topic is required.", by rw [main_click, if_neg hk, if_pos ht]⟩,
        fun f2 r2 b2 => by
          rw [main_click, if_neg hk, if_pos ht, main_click, if_neg hk, if_pos ht]⟩
  · intro hk ht
    rw [main_click, if_neg hk, if_neg ht]

/-- C7 witness: empty API key with a non-empty topic yields the inline
error for every backend. -/
theorem C7_main_click_validation_witness :
    ∃ msg, main_click (fun _ p => p) (fun _ => []) true "" "x" =
      ([UIEvent.errorMsg msg], none) :=
  ((C7_main_click_validation (fun _ p => p) (fun _ => []) true "" "x").1 (Or.inl rfl)).1

/-! ## Non-emptiness helpers for the reference list -/

theorem str_eq_empty_of_data_nil (a : String) (h : a.data = []) : a = "" := by
  rcases a with ⟨l⟩
  cases l with
  | nil => rfl
  | cons c t => exact absurd h (by simp)

theorem str_append_ne_empty_left (a b : String) (ha : a ≠ "") : a ++ b ≠ "" := by
  intro hc
  apply ha
  have hd : (a ++ b).data = [] := by rw [hc]
  rw [str_data_append] at hd
  exact str_eq_empty_of_data_nil a (List.append_eq_nil.mp hd).1

theorem strJoin_cons_ne_empty (sep x : String) (l : List String) (hx : x ≠ "") :
    strJoin sep (x :: l) ≠ "" := by
  cases l with
  | nil => exact hx
  | cons y t =>
    show x ++ sep ++ strJoin sep (y :: t) ≠ ""
    exact str_append_ne_empty_left _ _ (str_append_ne_empty_left x sep hx)

/-- The reference list is empty exactly when the retrieval on the
original topic returns no documents. -/
theorem url_list_empty_iff (retriever : String → List Doc) (topic : String) :
    create_url_list_chain retriever topic = "" ↔ retriever topic = [] := by
  rcases hret : retriever topic with _ | ⟨d, ds⟩
  · constructor
    · intro _; rfl
    · intro _; rw [create_url_list_chain, hret]; rfl
  · constructor
    · intro hempty
      exfalso
      rw [create_url_list_chain, hret] at hempty
      have hempty2 : strJoin "\n"
          (("[" ++ d.title ++ "](" ++ d.entry_id ++ ")") ::
            (ds.take 9).map (fun u => "[" ++ u.title ++ "](" ++ u.entry_id ++ ")")) = "" :=
        hempty
      exact strJoin_cons_ne_empty _ _ _
        (str_append_ne_empty_left _ _ (str_append_ne_empty_left _ _
          (str_append_ne_empty_left _ _
            (str_append_ne_empty_left "[" d.title (by decide))))) hempty2
    · intro hnil
      exact absurd hnil (by simp)

/-- C1 counterexample: with a model whose query-generation output is
invalid JSON and a retriever returning one document for the topic, the
pipeline yields an empty research summary and still sends the final
prompt, but the reference list is `"[T1](U1)"`, not empty — the
url_list is built from an independent retrieval on the original topic
and is unaffected by the JSON failure. -/
theorem C1_counterexample :
    jsonLoads ((fun _ => "not json") (search_prompt_render "t")) =
      .error "Expecting value" ∧
    research_summary_value (fun _ => "not json")
      (fun _ => [Doc.mk "T1" "U1" "P1"]) "t" = .ok "" ∧
    create_url_list_chain (fun _ => [Doc.mk "T1" "U1" "P1"]) "t" = "[T1](U1)" ∧
    "[T1](U1)" ≠ "" ∧
    create_final_chain (fun _ => "not json") (fun _ => [Doc.mk "T1" "U1" "P1"]) "t" =
      .ok "not json" := by
  exact ⟨by rfl, by rfl, by rfl, by decide, by rfl⟩

/-- C1 (amended): if the query-generation model output is invalid
JSON, then for every topic the pipeline still executes without
crashing: the research summary is the empty string and the final
report prompt (with that empty summary) is still sent to the model;
the reference list is built from an independent retrieval on the
original topic, unaffected by the JSON failure, and is empty exactly
when that retrieval returns no documents. -/
theorem C1_invalid_json_pipeline :
    ∀ (llm : String → String) (retriever : String → List Doc) (topic e : String),
      jsonLoads (llm (search_prompt_render topic)) = .error e →
      research_summary_value llm retriever topic = .ok "" ∧
      create_final_chain llm retriever topic =
        .ok (llm (writer_prompt_render (inputDictRepr topic) (rsDictRepr topic "")
          (urlDictRepr (create_url_list_chain retriever topic)))) ∧
      (create_url_list_chain retriever topic = "" ↔ retriever topic = []) := by
  intro llm retriever topic e h
  have hq : create_search_query_chain llm topic = PyJson.arr [] := by
    rw [create_search_query_chain, parse_json, h]
  have hrs : research_summary_value llm retriever topic = .ok "" := by
    rw [research_summary_value, create_full_research_chain, hq]
    rfl
  refine ⟨hrs, ?_, url_list_empty_iff retriever topic⟩
  rw [create_final_chain, hrs]
  rfl

/-- C1 witness: the amended theorem applied to a model answering
`"not json"` and a retriever returning no documents. -/
theorem C1_invalid_json_pipeline_witness :
    research_summary_value (fun _ => "not json") (fun _ => ([] : List Doc)) "t" = .ok "" ∧
    create_final_chain (fun _ => "not json") (fun _ => ([] : List Doc)) "t" =
      .ok ((fun _ => "not json")
        (writer_prompt_render (inputDictRepr "t") (rsDictRepr "t" "")
          (urlDictRepr (create_url_list_chain (fun _ => ([] : List Doc)) "t")))) ∧
    (create_url_list_chain (fun _ => ([] : List Doc)) "t" = "" ↔
      (fun _ => ([] : List Doc)) "t" = []) :=
  C1_invalid_json_pipeline (fun _ => "not json") (fun _ => ([] : List Doc)) "t"
    "Expecting value" (by rfl)
